import Mathlib

/-!
Shallow embedding of `src/lms2012/lms2012_compat.c` (the lms2012 compatibility
platform driver).  External collaborators (the device-tree layer, the
pin-control / GPIO / I2C / clock / PWM providers, the allocator and the
device-registration subsystem) are modelled as an oracle environment `Env`
whose fields give the result of each external call the probe routine makes.
The probe routine itself is translated statement by statement into a chain of
phases over a state `St` that records, in order, every provider-visible event
(claims, releases, the publication of the global instance, sub-device
registrations) and the device-managed (`devm*` / `devres`) resource list that
the Linux driver core releases, in reverse insertion order, when a probe fails
or the device is unbound.
-/

namespace Lms2012

/-- Modelled from the spec: `lms2012.h` is not among the provided sources.  The
spec fixes four input ports (`INPUTS`); the driver only ever compares counts
with this constant. -/
def INPUTS : Nat := 4

/-- Modelled from the spec: four output ports (`OUTPUTS`). -/
def OUTPUTS : Nat := 4

/-- Modelled from the spec: the ADC channel-index array has
`INPUT_ADC_COUNT = 4` entries (`INPUTADC` in the source). -/
def INPUTADC : Nat := 4

/-- Modelled from the spec: the shared SPI pin group has exactly 3 lines
(`ADC_SPI_PINS`). -/
def ADC_SPI_PINS : Nat := 3

/-- Modelled from the spec: expected arity of an input-port GPIO group
(`INPUT_PORT_PINS`).  The spec fixes no numeric value; the driver only compares
the group's line count with it for equality, so a representative value is used. -/
def INPUT_PORT_PINS : Nat := 5

/-- Modelled from the spec: expected arity of an output-port GPIO group
(`OUTPUT_PORT_PINS`); equality-compared only, representative value. -/
def OUTPUT_PORT_PINS : Nat := 6

/-- Linux errno `EBUSY` (the driver returns `-EBUSY`). -/
def EBUSY : Int := 16

/-- Linux errno `ENOMEM`. -/
def ENOMEM : Int := 12

/-- Linux errno `EINVAL`. -/
def EINVAL : Int := 22

/-- Linux errno `ENODEV`. -/
def ENODEV : Int := 19

/-- Linux errno `EOVERFLOW`. -/
def EOVERFLOW : Int := 75

/-- Linux `EPROBE_DEFER` pseudo-errno (the probe-deferral code). -/
def EPROBE_DEFER : Int := 517

/-- Names of GPIO consumers the driver asks the GPIO provider for.  The source
builds them with `snprintf`: `"spi"`, `"in%d"`, `"in%d-pin2"` (port numbers
`i+1`), `"out%c"` (letters `'A'+i`); here the underlying 0-based loop index is
carried directly. -/
inductive GpioName where
  | spi
  | inPort (i : Nat)
  | inPin2 (i : Nat)
  | outPort (i : Nat)
deriving DecidableEq, Repr

/-- The four logical sub-devices registered on success, with their source
names `"d_analog"`, `"d_iic"`, `"d_uart"`, `"d_pwm"`. -/
inductive SubDev where
  | d_analog
  | d_iic
  | d_uart
  | d_pwm
deriving DecidableEq, Repr

/-- Identity of a provider-owned resource handle claimed by the probe routine:
a pin-control handle per input port, a GPIO line or line group, an I2C adapter
reference (identified by its bus number), a mapped UART register window, a
prepared+enabled UART functional clock, a PWM channel. -/
inductive ResId where
  | pinctrl (i : Nat)
  | gpio (g : GpioName)
  | i2c (bus : Nat)
  | uartMem (i : Nat)
  | clk (i : Nat)
  | pwm (i : Nat)
deriving DecidableEq, Repr

/-- Provider-visible events, recorded in program order.  `putNull` records a
call of `i2c_put_adapter(NULL)`, which the kernel treats as a no-op (it
releases nothing). -/
inductive Ev where
  | claim (r : ResId)
  | release (r : ResId)
  | putNull
  | setGlobal
  | clearGlobal
  | reg (d : SubDev)
  | unreg (d : SubDev)
deriving DecidableEq, Repr

/-- One entry of the device's managed-resource (`devres`) list.  `devm_*`
acquisitions insert an entry whose release action frees the handle;
`devres_alloc`/`devres_add` insert a custom record.  `i2cRecord stored` is the
record added for an I2C adapter: `stored` is the value of its `adapter` field
at release time.  `devres_alloc` zero-fills the record and
`lms2012_compat_probe` never assigns the field, so the probe only ever adds
`i2cRecord none`. -/
inductive DevresEntry where
  | gpioArray (g : GpioName)
  | ioremap (i : Nat)
  | i2cRecord (stored : Option Nat)
  | clkRecord (i : Nat)
  | pwm (i : Nat)
deriving DecidableEq, Repr

/-- Release action of a devres entry, as run by the driver core.
`lms2012_compat_release_i2c_adapter` calls `i2c_put_adapter(res->adapter)`:
a `putNull` no-op when the field was never assigned, a real release otherwise.
`lms2012_compat_release_clk` disables, unprepares and puts the clock. -/
def DevresEntry.releaseEv : DevresEntry → Ev
  | .gpioArray g => .release (.gpio g)
  | .ioremap i => .release (.uartMem i)
  | .i2cRecord none => .putNull
  | .i2cRecord (some b) => .release (.i2c b)
  | .clkRecord i => .release (.clk i)
  | .pwm i => .release (.pwm i)

/-- State threaded through the probe routine: the event trace so far and the
devres list (in insertion order). -/
structure St where
  trace : List Ev
  devres : List DevresEntry
deriving DecidableEq, Repr

/-- Initial state: nothing claimed, nothing managed. -/
def stInit : St := ⟨[], []⟩

/-- Append one event to the trace. -/
def emit (e : Ev) (st : St) : St := { st with trace := st.trace ++ [e] }

/-- Append one managed-resource entry (`devres_add` appends to the list). -/
def addDevres (d : DevresEntry) (st : St) : St :=
  { st with devres := st.devres ++ [d] }

/-- Release actions of the whole devres list, in reverse insertion order, as
`devres_release_all` runs them when a probe fails or the device is unbound. -/
def devresUnwind (ds : List DevresEntry) : List Ev :=
  ds.reverse.map DevresEntry.releaseEv

/-- Kernel semantics of `of_property_read_u32_array(np, name, out, sz)` (with
`sz_max = 0`, i.e. the plain fixed-size variant): `-EINVAL` if the property
does not exist, `-EOVERFLOW` if its declared length is smaller than `sz`, and
otherwise success reading the first `sz` elements — a longer property is
accepted.  The property is modelled as `Option (List Nat)` (absent, or its
u32 values). -/
def of_property_read_u32_array (prop : Option (List Nat)) (sz : Nat) :
    Except Int (List Nat) :=
  match prop with
  | none => .error (-EINVAL)
  | some vs => if vs.length < sz then .error (-EOVERFLOW) else .ok (vs.take sz)

/-- Kernel semantics of `of_property_count_u32_elems`: the number of u32
elements of the property, or `-EINVAL` if it does not exist. -/
def of_property_count_u32_elems (prop : Option (List Nat)) : Int :=
  match prop with
  | none => -EINVAL
  | some vs => vs.length

/-- Oracle environment: the result of every external call the probe routine
makes, in the order the source makes them.  Per-port oracles are indexed by
the 0-based loop counter. -/
structure Env where
  kzallocOk : Bool
  inPortsCount : Int
  inPortParse : Nat → Except Int Unit
  inPortFind : Nat → Bool
  pinctrlGet : Nat → Except Int Unit
  adcProp : Option (List Nat)
  spiPins : Except Int Nat
  inPin2 : Nat → Except Int Bool
  inPins : Nat → Except Int Nat
  i2csProp : Option (List Nat)
  i2cAvail : Nat → Bool
  i2cAllocOk : Nat → Bool
  uartsCount : Int
  uartParse : Nat → Except Int Unit
  uartAddr : Nat → Except Int Unit
  uartIoremap : Nat → Except Int Unit
  uartIrq : Nat → Int
  uartClockFreq : Nat → Except Int Nat
  clkAllocOk : Nat → Bool
  uartClkGet : Nat → Except Int Unit
  uartClkPrepare : Nat → Int
  outPins : Nat → Except Int Nat
  outPwm : Nat → Except Int Unit

/-- Outcome of a probe call: a returned status code, or the undefined
behaviour of dereferencing a NULL pointer. -/
inductive Outcome where
  | ret (code : Int)
  | nullDeref
deriving DecidableEq, Repr

/-- Result type of a probe phase: early return with an outcome and the state
at that point, or the state to continue with. -/
abbrev PR := Except (Outcome × St) St

instance {ε α : Type} [DecidableEq ε] [DecidableEq α] :
    DecidableEq (Except ε α) := fun a b =>
  match a, b with
  | .ok x, .ok y =>
    if h : x = y then isTrue (by rw [h])
    else isFalse (fun hc => h (Except.ok.inj hc))
  | .error x, .error y =>
    if h : x = y then isTrue (by rw [h])
    else isFalse (fun hc => h (Except.error.inj hc))
  | .ok _, .error _ => isFalse Except.noConfusion
  | .error _, .ok _ => isFalse Except.noConfusion

/-- Run a `for (i = 0; i < n; i++)` loop whose body may return early. -/
def loopM (n : Nat) (body : Nat → St → PR) (st : St) : PR :=
  (List.range n).foldlM (fun s i => body i s) st

/-- Count check on `of_count_phandle_with_args(node, "in-in-ports", ...)`:
a negative result is returned unchanged, a count different from `INPUTS`
returns `-EINVAL`. -/
def phase_in_count (env : Env) (st : St) : PR :=
  if env.inPortsCount < 0 then .error (.ret env.inPortsCount, st)
  else if env.inPortsCount ≠ (INPUTS : Int) then .error (.ret (-EINVAL), st)
  else .ok st

/-- Body of the first per-input-port loop: parse the port phandle, find its
platform device, `devm_pinctrl_get_select_default(&in_port->dev)` (claims the
pin-control handle and selects the default state).  The call manages the
handle on the *input port's* device, not on the probing device, so no entry
joins this probe's devres list and neither this probe's failure unwind nor its
unbind ever releases the handle.  The `pinctrl_lookup_state` calls for
"default" and "i2c" store lookups with no resource effect and are not
evented.  The balanced `of_find_device_by_node`/`platform_device_put` pair on
the port's own device is likewise not a provider-handle claim. -/
def pinctrl_body (env : Env) (i : Nat) (st : St) : PR :=
  match env.inPortParse i with
  | .error e => .error (.ret e, st)
  | .ok _ =>
    if env.inPortFind i = false then .error (.ret (-ENODEV), st)
    else
      match env.pinctrlGet i with
      | .error e => .error (.ret e, st)
      | .ok _ => .ok (emit (.claim (.pinctrl i)) st)

/-- Read of the `"adc-channels"` property into `lms->adc_map` with requested
size `INPUTADC`; a failure is returned unchanged.  The values are plain
validated data, not handles, and are not retained by the model. -/
def phase_adc (env : Env) (st : St) : PR :=
  match of_property_read_u32_array env.adcProp INPUTADC with
  | .error e => .error (.ret e, st)
  | .ok _ => .ok st

/-- Acquisition of the shared SPI GPIO group (`devm_gpiod_get_array`): an
error is returned unchanged; on success the group is claimed (and managed)
before its arity is checked against `ADC_SPI_PINS`, and a wrong arity returns
`-EINVAL`. -/
def phase_spi (env : Env) (st : St) : PR :=
  match env.spiPins with
  | .error e => .error (.ret e, st)
  | .ok nd =>
    let st1 := addDevres (.gpioArray .spi) (emit (.claim (.gpio .spi)) st)
    if nd ≠ ADC_SPI_PINS then .error (.ret (-EINVAL), st1) else .ok st1

/-- Body of the second per-input-port loop: the optional `"in%d-pin2"` line
(absence is not an error, presence claims a managed line), then the required
`"in%d"` group, claimed and managed before its arity check against
`INPUT_PORT_PINS`. -/
def inpins_body (env : Env) (i : Nat) (st : St) : PR :=
  match env.inPin2 i with
  | .error e => .error (.ret e, st)
  | .ok present =>
    let st1 := if present then
        addDevres (.gpioArray (.inPin2 i)) (emit (.claim (.gpio (.inPin2 i))) st)
      else st
    match env.inPins i with
    | .error e => .error (.ret e, st1)
    | .ok nd =>
      let st2 := addDevres (.gpioArray (.inPort i))
        (emit (.claim (.gpio (.inPort i))) st1)
      if nd ≠ INPUT_PORT_PINS then .error (.ret (-EINVAL), st2) else .ok st2

/-- Body of the I2C loop for one port, given the adapter-number array read
from `"in-i2cs"`: `i2c_get_adapter` returns NULL for a not-yet-available bus
(`-EPROBE_DEFER`); otherwise the adapter reference is claimed, a devres record
is allocated (on allocation failure the adapter is put back directly and
`-ENOMEM` returned) and added.  The source never assigns the record's
`adapter` field after the zero-filling `devres_alloc`, so the added record
stores `none`. -/
def i2c_body (env : Env) (adapters : List Nat) (i : Nat) (st : St) : PR :=
  let bus := adapters.getD i 0
  if env.i2cAvail bus = false then .error (.ret (-EPROBE_DEFER), st)
  else
    let st1 := emit (.claim (.i2c bus)) st
    if env.i2cAllocOk i = false then
      .error (.ret (-ENOMEM), emit (.release (.i2c bus)) st1)
    else .ok (addDevres (.i2cRecord none) st1)

/-- I2C phase: `of_property_count_u32_elems("in-i2cs")` must equal `INPUTS`
(a negative count is returned unchanged, any other mismatch returns
`-EINVAL`); then the array is read and the per-port loop runs. -/
def phase_i2c (env : Env) (st : St) : PR :=
  if of_property_count_u32_elems env.i2csProp ≠ (INPUTS : Int) then
    if of_property_count_u32_elems env.i2csProp < 0 then
      .error (.ret (of_property_count_u32_elems env.i2csProp), st)
    else .error (.ret (-EINVAL), st)
  else
    match of_property_read_u32_array env.i2csProp INPUTS with
    | .error e => .error (.ret e, st)
    | .ok adapters => loopM INPUTS (i2c_body env adapters) st

/-- Body of the UART loop for one port: parse the phandle, translate its
address, `devm_ioremap_resource` (claims and manages the register window),
`of_irq_get` (a plain number, negative on error), read `"clock-frequency"`,
allocate the clock bookkeeping record — the source does not check this
allocation and immediately stores through the pointer, so a failed allocation
dereferences NULL — then `of_clk_get_by_name` (claims the clock handle) and
`clk_prepare_enable` (on failure the clock is put back and the record freed);
on success the record joins the devres list.  The `of_node_put` calls balance
device-tree node reference counts, which are outside the spec's resource
model. -/
def uart_body (env : Env) (i : Nat) (st : St) : PR :=
  match env.uartParse i with
  | .error e => .error (.ret e, st)
  | .ok _ =>
    match env.uartAddr i with
    | .error e => .error (.ret e, st)
    | .ok _ =>
      match env.uartIoremap i with
      | .error e => .error (.ret e, st)
      | .ok _ =>
        let st1 := addDevres (.ioremap i) (emit (.claim (.uartMem i)) st)
        if env.uartIrq i < 0 then .error (.ret (env.uartIrq i), st1)
        else
          match env.uartClockFreq i with
          | .error e => .error (.ret e, st1)
          | .ok _ =>
            if env.clkAllocOk i = false then .error (.nullDeref, st1)
            else
              match env.uartClkGet i with
              | .error e => .error (.ret e, st1)
              | .ok _ =>
                let st2 := emit (.claim (.clk i)) st1
                if env.uartClkPrepare i < 0 then
                  .error (.ret (env.uartClkPrepare i),
                          emit (.release (.clk i)) st2)
                else .ok (addDevres (.clkRecord i) st2)

/-- UART phase: `of_count_phandle_with_args("in-uarts", ...)` — a negative
result returned unchanged, a count different from `INPUTS` returns `-EINVAL` —
then the per-port loop. -/
def phase_uart (env : Env) (st : St) : PR :=
  if env.uartsCount < 0 then .error (.ret env.uartsCount, st)
  else if env.uartsCount ≠ (INPUTS : Int) then .error (.ret (-EINVAL), st)
  else loopM INPUTS (uart_body env) st

/-- Body of the output-pins loop: the `"out%c"` GPIO group, claimed and
managed before its arity check against `OUTPUT_PORT_PINS`. -/
def out_body (env : Env) (i : Nat) (st : St) : PR :=
  match env.outPins i with
  | .error e => .error (.ret e, st)
  | .ok nd =>
    let st1 := addDevres (.gpioArray (.outPort i))
      (emit (.claim (.gpio (.outPort i))) st)
    if nd ≠ OUTPUT_PORT_PINS then .error (.ret (-EINVAL), st1) else .ok st1

/-- Body of the PWM loop: `devm_pwm_get` — any error (including
`-EPROBE_DEFER`, which merely skips the diagnostic print) is returned
unchanged; success claims and manages the channel. -/
def pwm_body (env : Env) (i : Nat) (st : St) : PR :=
  match env.outPwm i with
  | .error e => .error (.ret e, st)
  | .ok _ => .ok (addDevres (.pwm i) (emit (.claim (.pwm i)) st))

/-- Final statements of a fully successful probe: `platform_set_drvdata`
(bookkeeping, not evented), publication of the global device pointer, then the
four `platform_device_register_simple` calls in source order.  The source
stores their return values in `lms->d_*` but never inspects them. -/
def phase_register (st : St) : St :=
  { st with trace := st.trace ++
      [Ev.setGlobal, .reg .d_analog, .reg .d_iic, .reg .d_uart, .reg .d_pwm] }

/-- The `devm_kzalloc` of the `lms2012_compat` bookkeeping structure:
`-ENOMEM` when it fails. -/
def afterAlloc (env : Env) : PR :=
  if env.kzallocOk = false then .error (.ret (-ENOMEM), stInit) else .ok stInit

/-- Cumulative stages of the probe body, each the previous stage followed by
the next phase of the source, in source order. -/
def afterInCount (env : Env) : PR := afterAlloc env >>= phase_in_count env

/-- Stage after the pin-control loop over the input ports. -/
def afterPinctrl (env : Env) : PR :=
  afterInCount env >>= loopM INPUTS (pinctrl_body env)

/-- Stage after the `"adc-channels"` read. -/
def afterAdc (env : Env) : PR := afterPinctrl env >>= phase_adc env

/-- Stage after the SPI pin-group acquisition. -/
def afterSpi (env : Env) : PR := afterAdc env >>= phase_spi env

/-- Stage after the input-port GPIO loop. -/
def afterInPins (env : Env) : PR :=
  afterSpi env >>= loopM INPUTS (inpins_body env)

/-- Stage after the I2C phase. -/
def afterI2c (env : Env) : PR := afterInPins env >>= phase_i2c env

/-- Stage after the UART phase. -/
def afterUart (env : Env) : PR := afterI2c env >>= phase_uart env

/-- Stage after the output-port GPIO loop. -/
def afterOut (env : Env) : PR :=
  afterUart env >>= loopM OUTPUTS (out_body env)

/-- Stage after the PWM loop: the last fallible stage. -/
def afterPwm (env : Env) : PR :=
  afterOut env >>= loopM OUTPUTS (pwm_body env)

/-- Whole probe body after the `global_dev` singleton guard: all fallible
stages, then the infallible publication/registration tail. -/
def probeCore (env : Env) : PR := Except.map phase_register (afterPwm env)

/-- Top-level `lms2012_compat_probe`.  `globalSet` is whether `global_dev` is
already non-NULL; `reg` is the device-registration collaborator, whose results
the source discards, so the model never consults it.  On an error return the
driver core releases every managed resource in reverse insertion order; a NULL
dereference is a crash, after which no unwind runs. -/
def lms2012_compat_probe (env : Env) (_reg : SubDev → Except Int Unit)
    (globalSet : Bool) : Outcome × St :=
  match globalSet with
  | true => (.ret (-EBUSY), stInit)
  | false =>
    match probeCore env with
    | .ok st => (.ret 0, st)
    | .error (.nullDeref, st) => (.nullDeref, st)
    | .error (.ret e, st) =>
      (.ret e, ⟨st.trace ++ devresUnwind st.devres, []⟩)

/-- Top-level `lms2012_compat_remove`: unregisters the four sub-devices in
reverse registration order, clears `global_dev`, and returns 0.  (The managed
resources are then released by the driver core as part of unbinding, outside
this function.) -/
def lms2012_compat_remove (st : St) : Int × St :=
  (0, { st with trace := st.trace ++
      [Ev.unreg .d_pwm, .unreg .d_uart, .unreg .d_iic, .unreg .d_analog,
       Ev.clearGlobal] })

/-- Full teardown of a bound device: `lms2012_compat_remove` followed by the
driver core's reverse-order release of the managed-resource list. -/
def removeAndUnbind (st : St) : Int × St :=
  let r := lms2012_compat_remove st
  (r.1, ⟨r.2.trace ++ devresUnwind r.2.devres, []⟩)

/-- Resources claimed in a trace, in order. -/
def claimedIds (tr : List Ev) : List ResId :=
  tr.filterMap fun e => match e with | .claim r => some r | _ => none

/-- Resources released in a trace, in order (`putNull` releases nothing). -/
def releasedIds (tr : List Ev) : List ResId :=
  tr.filterMap fun e => match e with | .release r => some r | _ => none

/-- Constructor test for the phase result type. -/
def exOk : PR → Bool
  | .ok _ => true
  | .error _ => false

/-- Global-accessor state: the `global_dev` pointer (a device identified by a
number) and the per-device use-count. -/
structure DevState where
  globalDev : Option Nat
  refcount : Nat → Nat

/-- Kernel `get_device`: NULL passes through untouched; otherwise the
device's use-count is incremented and the same device returned. -/
def get_device (dev : Option Nat) (rc : Nat → Nat) :
    Option Nat × (Nat → Nat) :=
  match dev with
  | none => (none, rc)
  | some d => (some d, fun x => if x = d then rc x + 1 else rc x)

/-- Source `lms2012_compat_get`: `return get_device(global_dev);`. -/
def lms2012_compat_get (s : DevState) : Option Nat × DevState :=
  ((get_device s.globalDev s.refcount).1,
   ⟨s.globalDev, (get_device s.globalDev s.refcount).2⟩)

/-- Registration collaborator that always succeeds. -/
def regOk : SubDev → Except Int Unit := fun _ => .ok ()

/-- Registration collaborator that always fails (with `-ENOMEM`). -/
def regFail : SubDev → Except Int Unit := fun _ => .error (-ENOMEM)

/-- Fully valid description and providers: 4 input-port phandles, ADC map
`[0,1,2,3]`, a 3-line SPI group, no optional pin-2 lines, 5-line input-port
groups, I2C buses `[3,4,5,6]` all available, 4 UARTs with valid windows,
interrupts, clock frequencies and clocks, 6-line output-port groups and
available PWM channels. -/
def goodEnv : Env where
  kzallocOk := true
  inPortsCount := 4
  inPortParse := fun _ => .ok ()
  inPortFind := fun _ => true
  pinctrlGet := fun _ => .ok ()
  adcProp := some [0, 1, 2, 3]
  spiPins := .ok 3
  inPin2 := fun _ => .ok false
  inPins := fun _ => .ok 5
  i2csProp := some [3, 4, 5, 6]
  i2cAvail := fun _ => true
  i2cAllocOk := fun _ => true
  uartsCount := 4
  uartParse := fun _ => .ok ()
  uartAddr := fun _ => .ok ()
  uartIoremap := fun _ => .ok ()
  uartIrq := fun _ => 30
  uartClockFreq := fun _ => .ok 132000000
  clkAllocOk := fun _ => true
  uartClkGet := fun _ => .ok ()
  uartClkPrepare := fun _ => 0
  outPins := fun _ => .ok 6
  outPwm := fun _ => .ok ()

/-- The state a fully successful probe of `goodEnv` ends in. -/
def stGood : St :=
  match probeCore goodEnv with
  | .ok st => st
  | .error _ => stInit

/-- Description valid through the whole I2C phase but declaring only 3 UART
phandles. -/
def envUartCount : Env := { goodEnv with uartsCount := 3 }

/-- Description whose I2C bus 5 (used by the third port) is not yet
available. -/
def envI2cDefer : Env := { goodEnv with i2cAvail := fun b => b != 5 }

/-- Description whose output-port GPIO groups have 7 lines instead of
`OUTPUT_PORT_PINS`. -/
def envOutArity : Env := { goodEnv with outPins := fun _ => .ok 7 }

/-- Providers for which the clock bookkeeping allocation of the first UART
fails. -/
def envClkAlloc : Env := { goodEnv with clkAllocOk := fun _ => false }

/-- Description declaring five I2C adapters instead of `INPUTS`. -/
def envI2cCount : Env := { goodEnv with i2csProp := some [3, 4, 5, 6, 7] }

/-- Description declaring five input-port phandles instead of `INPUTS`. -/
def envInCount : Env := { goodEnv with inPortsCount := 5 }

/-- Description whose `"adc-channels"` property has 5 entries, one more than
`INPUTADC`. -/
def envAdcLong : Env := { goodEnv with adcProp := some [0, 1, 2, 3, 4] }

/-- Description whose `"adc-channels"` property is absent. -/
def envAdcNone : Env := { goodEnv with adcProp := none }

/-- Description whose `"adc-channels"` property has only 2 entries. -/
def envAdcShort : Env := { goodEnv with adcProp := some [0, 1] }

theorem exOk_iff (x : PR) : exOk x = true ↔ ∃ st, x = .ok st := by
  cases x with
  | ok st => simp [exOk]
  | error e => simp [exOk]

theorem emap_ok_inv {α β ε : Type} {f : α → β} {x : Except ε α} {b : β}
    (h : Except.map f x = .ok b) : ∃ a, x = .ok a ∧ b = f a := by
  cases x with
  | ok a =>
    simp only [Except.map, Except.ok.injEq] at h
    exact ⟨a, rfl, h.symm⟩
  | error e => exact Except.noConfusion (by simpa only [Except.map] using h)

theorem probeCore_err_of_afterPwm {env : Env} {x : Outcome × St}
    (h : afterPwm env = .error x) : probeCore env = .error x := by
  unfold probeCore; rw [h]; rfl

theorem afterPwm_err_of_afterUart {env : Env} {x : Outcome × St}
    (h : afterUart env = .error x) : afterPwm env = .error x := by
  unfold afterPwm afterOut; rw [h]; rfl

theorem afterPwm_err_of_afterI2c {env : Env} {x : Outcome × St}
    (h : afterI2c env = .error x) : afterPwm env = .error x := by
  unfold afterPwm afterOut afterUart; rw [h]; rfl

theorem afterPwm_err_of_afterAdc {env : Env} {x : Outcome × St}
    (h : afterAdc env = .error x) : afterPwm env = .error x := by
  unfold afterPwm afterOut afterUart afterI2c afterInPins afterSpi; rw [h]; rfl

theorem afterPwm_err_of_afterInCount {env : Env} {x : Outcome × St}
    (h : afterInCount env = .error x) : afterPwm env = .error x := by
  unfold afterPwm afterOut afterUart afterI2c afterInPins afterSpi afterAdc
    afterPinctrl
  rw [h]; rfl

theorem probe_eq_of_core_err {env : Env} {reg : SubDev → Except Int Unit}
    {e : Int} {st : St} (h : probeCore env = .error (.ret e, st)) :
    lms2012_compat_probe env reg false =
      (.ret e, ⟨st.trace ++ devresUnwind st.devres, []⟩) := by
  have hdef : lms2012_compat_probe env reg false =
      (match probeCore env with
       | .ok st => ((Outcome.ret 0 : Outcome), st)
       | .error (.nullDeref, st) => (.nullDeref, st)
       | .error (.ret e, st) =>
         (.ret e, ⟨st.trace ++ devresUnwind st.devres, []⟩)) := rfl
  rw [hdef, h]

theorem probe_eq_of_core_ok {env : Env} {reg : SubDev → Except Int Unit}
    {st : St} (h : probeCore env = .ok st) :
    lms2012_compat_probe env reg false = (.ret 0, st) := by
  have hdef : lms2012_compat_probe env reg false =
      (match probeCore env with
       | .ok st => ((Outcome.ret 0 : Outcome), st)
       | .error (.nullDeref, st) => (.nullDeref, st)
       | .error (.ret e, st) =>
         (.ret e, ⟨st.trace ++ devresUnwind st.devres, []⟩)) := rfl
  rw [hdef, h]

theorem read_array_short (vs : List Nat) (sz : Nat) (h : vs.length < sz) :
    of_property_read_u32_array (some vs) sz = .error (-EOVERFLOW) := by
  show (if vs.length < sz then (.error (-EOVERFLOW) : Except Int (List Nat))
        else .ok (vs.take sz)) = .error (-EOVERFLOW)
  rw [if_pos h]

theorem read_array_ok (vs : List Nat) (sz : Nat) (h : sz ≤ vs.length) :
    of_property_read_u32_array (some vs) sz = .ok (vs.take sz) := by
  show (if vs.length < sz then (.error (-EOVERFLOW) : Except Int (List Nat))
        else .ok (vs.take sz)) = .ok (vs.take sz)
  rw [if_neg (by omega)]

/-- C1: the claim says every I2C adapter handle obtained during acquisition is
released exactly once when the probe fails or the device is removed.  The code
violates it: `lms2012_compat_probe` never assigns the `adapter` field of the
zero-filled devres record, so `lms2012_compat_release_i2c_adapter` calls
`i2c_put_adapter(NULL)` (a no-op) and the claimed adapter reference is leaked.
Evaluated at a description that fails after the I2C phase (3 UART phandles
instead of 4): the probe returns `-EINVAL`, adapter 3 was claimed once, no
release of it ever happens (only the NULL puts), and the same leak occurs on
removal after a fully successful probe of `goodEnv`. -/
theorem c1_i2c_adapter_leak :
    (lms2012_compat_probe envUartCount regOk false).1 = .ret (-EINVAL) ∧
    ((claimedIds (lms2012_compat_probe envUartCount regOk false).2.trace).count
        (ResId.i2c 3) = 1 ∧
      (releasedIds (lms2012_compat_probe envUartCount regOk false).2.trace).count
        (ResId.i2c 3) = 0 ∧
      Ev.putNull ∈ (lms2012_compat_probe envUartCount regOk false).2.trace) ∧
    ((claimedIds (removeAndUnbind stGood).2.trace).count (ResId.i2c 3) = 1 ∧
      (releasedIds (removeAndUnbind stGood).2.trace).count (ResId.i2c 3) = 0) := by
  decide

/-- C2 counterexample: for the description `envI2cCount`, whose declared I2C
adapter count (5) differs from `INPUTS`, the probe does fail with `-EINVAL`,
but pin-control acquisition had already happened — the claim's "no pin-control,
GPIO, I2C, clock, or other provider acquisition happens for a malformed
description" is false. -/
theorem c2_counterexample :
    of_property_count_u32_elems envI2cCount.i2csProp ≠ (INPUTS : Int) ∧
    (lms2012_compat_probe envI2cCount regOk false).1 = .ret (-EINVAL) ∧
    Ev.claim (ResId.pinctrl 0) ∈
      (lms2012_compat_probe envI2cCount regOk false).2.trace := by
  decide

/-- C2 (amended): a non-negative input-port phandle count different from
`INPUTS` fails the probe with `-EINVAL` before any resource is claimed (empty
trace); non-negative I2C-adapter and UART phandle counts different from
`INPUTS` also fail the probe with `-EINVAL`, but only after the acquisition
steps that precede those checks have run. -/
theorem c2_count_mismatch_amended (env : Env) :
    (env.kzallocOk = true → 0 ≤ env.inPortsCount →
      env.inPortsCount ≠ (INPUTS : Int) →
      ∀ reg, lms2012_compat_probe env reg false = (.ret (-EINVAL), stInit)) ∧
    (exOk (afterInPins env) = true →
      0 ≤ of_property_count_u32_elems env.i2csProp →
      of_property_count_u32_elems env.i2csProp ≠ (INPUTS : Int) →
      ∀ reg, (lms2012_compat_probe env reg false).1 = .ret (-EINVAL)) ∧
    (exOk (afterI2c env) = true →
      0 ≤ env.uartsCount → env.uartsCount ≠ (INPUTS : Int) →
      ∀ reg, (lms2012_compat_probe env reg false).1 = .ret (-EINVAL)) := by
  refine ⟨?_, ?_, ?_⟩
  · intro hk h0 hne reg
    have hAl : afterAlloc env = .ok stInit := by
      unfold afterAlloc; rw [hk]; rfl
    have hc : phase_in_count env stInit = .error (.ret (-EINVAL), stInit) := by
      unfold phase_in_count; rw [if_neg (by omega), if_pos hne]
    have h1 : afterInCount env = .error (.ret (-EINVAL), stInit) := by
      unfold afterInCount; rw [hAl]; exact hc
    rw [probe_eq_of_core_err (probeCore_err_of_afterPwm
      (afterPwm_err_of_afterInCount h1))]
    rfl
  · intro hOk h0 hne reg
    obtain ⟨st, hst⟩ := (exOk_iff _).1 hOk
    have hi : phase_i2c env st = .error (.ret (-EINVAL), st) := by
      unfold phase_i2c; rw [if_pos hne, if_neg (by omega)]
    have h1 : afterI2c env = .error (.ret (-EINVAL), st) := by
      unfold afterI2c; rw [hst]; exact hi
    rw [probe_eq_of_core_err (probeCore_err_of_afterPwm
      (afterPwm_err_of_afterI2c h1))]
  · intro hOk h0 hne reg
    obtain ⟨st, hst⟩ := (exOk_iff _).1 hOk
    have hu : phase_uart env st = .error (.ret (-EINVAL), st) := by
      unfold phase_uart; rw [if_neg (by omega), if_pos hne]
    have h1 : afterUart env = .error (.ret (-EINVAL), st) := by
      unfold afterUart; rw [hst]; exact hu
    rw [probe_eq_of_core_err (probeCore_err_of_afterPwm
      (afterPwm_err_of_afterUart h1))]

/-- C2 amended, instantiated: a wrong input-port count (`envInCount`) fails
with `-EINVAL` and an empty trace; wrong I2C-adapter (`envI2cCount`) and UART
(`envUartCount`) counts fail with `-EINVAL`. -/
theorem c2_amended_witness :
    lms2012_compat_probe envInCount regOk false = (.ret (-EINVAL), stInit) ∧
    (lms2012_compat_probe envI2cCount regOk false).1 = .ret (-EINVAL) ∧
    (lms2012_compat_probe envUartCount regOk false).1 = .ret (-EINVAL) :=
  ⟨(c2_count_mismatch_amended envInCount).1 (by decide) (by decide) (by decide)
      regOk,
   (c2_count_mismatch_amended envI2cCount).2.1 (by decide) (by decide)
      (by decide) regOk,
   (c2_count_mismatch_amended envUartCount).2.2 (by decide) (by decide)
      (by decide) regOk⟩

/-- C3: if `global_dev` is already set, a second probe returns `-EBUSY` with
an empty event trace and an empty managed-resource list — no allocation,
topology query, or provider acquisition is performed.  This holds for every
environment, i.e. whatever the description and providers would answer. -/
theorem c3_already_active (env : Env) (reg : SubDev → Except Int Unit) :
    lms2012_compat_probe env reg true = (.ret (-EBUSY), stInit) := rfl

/-- C4: the claim says an unavailable I2C adapter fails the probe with
`-EPROBE_DEFER` (true: the code propagates it unchanged) and that every
resource claimed earlier in the attempt is released (false: adapters claimed
in earlier loop iterations are leaked through the never-assigned devres
record).  Evaluated at `envI2cDefer`, where bus 5 — the third port's adapter —
is not yet available: the probe returns `-EPROBE_DEFER`, but the bus-3 adapter
reference claimed in the first iteration is never released. -/
theorem c4_defer_leak :
    (lms2012_compat_probe envI2cDefer regOk false).1 = .ret (-EPROBE_DEFER) ∧
    (claimedIds (lms2012_compat_probe envI2cDefer regOk false).2.trace).count
      (ResId.i2c 3) = 1 ∧
    (releasedIds (lms2012_compat_probe envI2cDefer regOk false).2.trace).count
      (ResId.i2c 3) = 0 ∧
    ¬ List.Perm
      (claimedIds (lms2012_compat_probe envI2cDefer regOk false).2.trace)
      (releasedIds (lms2012_compat_probe envI2cDefer regOk false).2.trace) := by
  decide

/-- C5: the claim says a GPIO-group arity mismatch fails the probe with
`-EINVAL` (true) and that zero resources remain claimed afterward (false for
the output-port arity check, which runs after the I2C phase: the four adapter
references remain claimed because the devres record's `adapter` field is never
assigned).  Evaluated at `envOutArity`, whose output groups have 7 lines
instead of `OUTPUT_PORT_PINS`. -/
theorem c5_arity_leak :
    (lms2012_compat_probe envOutArity regOk false).1 = .ret (-EINVAL) ∧
    (claimedIds (lms2012_compat_probe envOutArity regOk false).2.trace).count
      (ResId.i2c 3) = 1 ∧
    (releasedIds (lms2012_compat_probe envOutArity regOk false).2.trace).count
      (ResId.i2c 3) = 0 := by
  decide

/-- C6: the claim says a failed bookkeeping allocation is caught at the point
of occurrence, fails the attempt with `-ENOMEM`, and the failing allocation's
result is never dereferenced.  For the per-UART clock record the code checks
nothing: `clk = devres_alloc(...)` is immediately followed by
`clk->clk = of_clk_get_by_name(...)`, so a failed allocation dereferences
NULL.  Evaluated at `envClkAlloc`, where that allocation fails for the first
UART: the outcome is the NULL dereference, not `-ENOMEM`. -/
theorem c6_alloc_null_deref :
    (lms2012_compat_probe envClkAlloc regOk false).1 = Outcome.nullDeref ∧
    (lms2012_compat_probe envClkAlloc regOk false).1 ≠ .ret (-ENOMEM) := by
  decide

/-- C7 counterexample: `envAdcLong` declares an `"adc-channels"` property of
length 5 ≠ `INPUTADC`, yet the probe succeeds — `of_property_read_u32_array`
only rejects a property shorter than the requested size, so the claim "the
whole probe attempt fails with InvalidTopology" is false for longer
properties. -/
theorem c7_counterexample :
    envAdcLong.adcProp = some [0, 1, 2, 3, 4] ∧
    [0, 1, 2, 3, 4].length ≠ INPUTADC ∧
    (lms2012_compat_probe envAdcLong regOk false).1 = .ret 0 := by
  decide

/-- C7 (amended): an absent ADC channel-index property fails the whole probe
with `-EINVAL`, and a property shorter than `INPUT_ADC_COUNT` fails it with
`-EOVERFLOW`; a property of length at least `INPUT_ADC_COUNT` passes the ADC
step, only its first `INPUT_ADC_COUNT` entries being read. -/
theorem c7_adc_length_amended (env : Env) :
    (env.adcProp = none → exOk (afterPinctrl env) = true →
      ∀ reg, (lms2012_compat_probe env reg false).1 = .ret (-EINVAL)) ∧
    (∀ vs, env.adcProp = some vs → vs.length < INPUTADC →
      exOk (afterPinctrl env) = true →
      ∀ reg, (lms2012_compat_probe env reg false).1 = .ret (-EOVERFLOW)) ∧
    (∀ vs st, env.adcProp = some vs → INPUTADC ≤ vs.length →
      phase_adc env st = .ok st) := by
  refine ⟨?_, ?_, ?_⟩
  · intro hnone hOk reg
    obtain ⟨st, hst⟩ := (exOk_iff _).1 hOk
    have ha : phase_adc env st = .error (.ret (-EINVAL), st) := by
      unfold phase_adc; rw [hnone]; rfl
    have h1 : afterAdc env = .error (.ret (-EINVAL), st) := by
      unfold afterAdc; rw [hst]; exact ha
    rw [probe_eq_of_core_err (probeCore_err_of_afterPwm
      (afterPwm_err_of_afterAdc h1))]
  · intro vs hvs hlen hOk reg
    obtain ⟨st, hst⟩ := (exOk_iff _).1 hOk
    have ha : phase_adc env st = .error (.ret (-EOVERFLOW), st) := by
      unfold phase_adc; rw [hvs, read_array_short vs INPUTADC hlen]
    have h1 : afterAdc env = .error (.ret (-EOVERFLOW), st) := by
      unfold afterAdc; rw [hst]; exact ha
    rw [probe_eq_of_core_err (probeCore_err_of_afterPwm
      (afterPwm_err_of_afterAdc h1))]
  · intro vs st hvs hlen
    unfold phase_adc; rw [hvs, read_array_ok vs INPUTADC hlen]

/-- C7 amended, instantiated: a missing ADC property fails with `-EINVAL`, a
2-entry one with `-EOVERFLOW`, and a 4-entry one passes the ADC step. -/
theorem c7_amended_witness :
    (lms2012_compat_probe envAdcNone regOk false).1 = .ret (-EINVAL) ∧
    (lms2012_compat_probe envAdcShort regOk false).1 = .ret (-EOVERFLOW) ∧
    phase_adc goodEnv stInit = .ok stInit :=
  ⟨(c7_adc_length_amended envAdcNone).1 rfl (by decide) regOk,
   (c7_adc_length_amended envAdcShort).2.1 [0, 1] rfl (by decide) (by decide)
      regOk,
   (c7_adc_length_amended goodEnv).2.2 [0, 1, 2, 3] stInit rfl (by decide)⟩

/-- C8: on every successful probe the global device pointer is published
first and the four sub-devices "d_analog", "d_iic", "d_uart", "d_pwm" are
registered afterward, in that order (they are the final five events of the
trace); `lms2012_compat_remove` unregisters the four sub-devices in exactly
reverse registration order, then clears the global pointer, and always
returns 0. -/
theorem c8_publish_order (env : Env) (reg : SubDev → Except Int Unit)
    (st : St) (h : probeCore env = .ok st) :
    (∃ t, st.trace = t ++ [Ev.setGlobal, Ev.reg .d_analog, Ev.reg .d_iic,
        Ev.reg .d_uart, Ev.reg .d_pwm]) ∧
    lms2012_compat_probe env reg false = (.ret 0, st) ∧
    (lms2012_compat_remove st).2.trace = st.trace ++
      [Ev.unreg .d_pwm, Ev.unreg .d_uart, Ev.unreg .d_iic, Ev.unreg .d_analog,
       Ev.clearGlobal] ∧
    ∀ s : St, (lms2012_compat_remove s).1 = 0 := by
  have h' := h
  unfold probeCore at h'
  obtain ⟨a, hx, hfa⟩ := emap_ok_inv h'
  refine ⟨⟨a.trace, by rw [hfa]; rfl⟩, probe_eq_of_core_ok h, rfl,
    fun s => rfl⟩

/-- C8, instantiated at the fully valid description `goodEnv` and its
successful final state `stGood`. -/
theorem c8_witness :
    (∃ t, stGood.trace = t ++ [Ev.setGlobal, Ev.reg .d_analog, Ev.reg .d_iic,
        Ev.reg .d_uart, Ev.reg .d_pwm]) ∧
    lms2012_compat_probe goodEnv regOk false = (.ret 0, stGood) ∧
    (lms2012_compat_remove stGood).2.trace = stGood.trace ++
      [Ev.unreg .d_pwm, Ev.unreg .d_uart, Ev.unreg .d_iic, Ev.unreg .d_analog,
       Ev.clearGlobal] ∧
    ∀ s : St, (lms2012_compat_remove s).1 = 0 :=
  c8_publish_order goodEnv regOk stGood (by decide)

/-- C9: `lms2012_compat_get` returns an empty result, with the state
untouched, when no instance is published; when an active instance exists it
returns that instance's device handle, leaves the global pointer unchanged,
increments that device's use-count by one and no other device's. -/
theorem c9_get_active (s : DevState) :
    (s.globalDev = none → lms2012_compat_get s = (none, s)) ∧
    (∀ d, s.globalDev = some d →
      (lms2012_compat_get s).1 = some d ∧
      (lms2012_compat_get s).2.globalDev = s.globalDev ∧
      (lms2012_compat_get s).2.refcount d = s.refcount d + 1 ∧
      ∀ x, x ≠ d → (lms2012_compat_get s).2.refcount x = s.refcount x) := by
  obtain ⟨g, rc⟩ := s
  constructor
  · intro h
    change g = none at h
    subst h
    rfl
  · intro d h
    change g = some d at h
    subst h
    refine ⟨rfl, rfl, ?_, ?_⟩
    · simp [lms2012_compat_get, get_device]
    · intro x hx
      simp [lms2012_compat_get, get_device, hx]

/-- C9, instantiated: with no active instance the accessor returns an empty
result and an unchanged state; with device 7 active and use-count 5 it returns
device 7 with its use-count raised to 6. -/
theorem c9_witness :
    lms2012_compat_get ⟨none, fun _ => 5⟩ = (none, ⟨none, fun _ => 5⟩) ∧
    (lms2012_compat_get ⟨some 7, fun _ => 5⟩).1 = some 7 ∧
    (lms2012_compat_get ⟨some 7, fun _ => 5⟩).2.refcount 7 = 6 :=
  ⟨(c9_get_active _).1 rfl,
   ((c9_get_active _).2 7 rfl).1,
   by have h := ((c9_get_active ⟨some 7, fun _ => 5⟩).2 7 rfl).2.2.1
      simpa using h⟩

/-- C10: the probe's result and published state do not depend on the
device-registration collaborator at all — the source stores the four
`platform_device_register_simple` return values without ever inspecting
them — and once every acquisition stage succeeds the probe returns 0 and the
global instance is published, whatever the registration outcomes. -/
theorem c10_registration_ignored (env : Env)
    (r1 r2 : SubDev → Except Int Unit) :
    lms2012_compat_probe env r1 false = lms2012_compat_probe env r2 false ∧
    (exOk (afterPwm env) = true →
      (lms2012_compat_probe env r1 false).1 = .ret 0 ∧
      Ev.setGlobal ∈ (lms2012_compat_probe env r1 false).2.trace) := by
  refine ⟨rfl, fun h => ?_⟩
  obtain ⟨st, hst⟩ := (exOk_iff _).1 h
  have hc : probeCore env = .ok (phase_register st) := by
    unfold probeCore; rw [hst]; rfl
  rw [probe_eq_of_core_ok hc]
  refine ⟨rfl, ?_⟩
  show Ev.setGlobal ∈ (phase_register st).trace
  unfold phase_register
  simp

/-- C10, instantiated at `goodEnv` with an always-succeeding and an
always-failing registration collaborator. -/
theorem c10_witness :
    lms2012_compat_probe goodEnv regOk false =
      lms2012_compat_probe goodEnv regFail false ∧
    (lms2012_compat_probe goodEnv regOk false).1 = .ret 0 ∧
    Ev.setGlobal ∈ (lms2012_compat_probe goodEnv regOk false).2.trace :=
  ⟨(c10_registration_ignored goodEnv regOk regFail).1,
   (c10_registration_ignored goodEnv regOk regFail).2 (by decide)⟩

end Lms2012
